import Mathlib

/-!
Shallow embedding of the seafile Thrift RPC adapter
(`src/daemon/seafile_service.c` and `src/daemon/seafile_service.h`).

The adapter binds the generated RPC service interface to an external
repository-management engine.  The engine is opaque: every engine entry point
is modelled as a field of an `Engine` record giving, for each input, the value
the engine returns together with the `GError` it reports (if any).  C
`GError **` out-parameters are modelled by `ErrPtr`: `none` is a NULL pointer
(the caller supplied no error location) and `some s` a valid pointer to a slot
currently holding `s`.  Nullable C strings (`gchar *`) are `Option String`,
`gboolean` is `Bool`, and the integer arguments are `Int` (no arithmetic is
performed on them, so overflow never arises).  Each RPC handler becomes a pure
function from the engine, the handler object, its arguments and the error
pointer to an `RpcResult` holding the boolean return, the value written
through the `_return` out-parameter, the (possibly updated) handler object and
the final state of the error pointer.
-/

/-- An opaque GLib error object (`GError`). -/
structure GError where
  domain : Nat
  code : Int
  message : String
deriving DecidableEq, Repr

/-- A `GError **` out-parameter: `none` models a NULL pointer, `some s` a
valid pointer to a slot holding `s` (itself `none` when no error is set). -/
abbrev ErrPtr : Type := Option (Option GError)

/-- Embedding of `handle_error` (seafile_service.c lines 8-14): FALSE iff the
error pointer is non-NULL and its slot holds an error. -/
def handle_error (error : ErrPtr) : Bool :=
  match error with
  | some (some _) => false
  | _ => true

/-- An engine call writing its reported error through the `GError **`
pointer: discarded when the pointer is NULL, stored in the slot otherwise. -/
def store_error (error : ErrPtr) (e : Option GError) : ErrPtr :=
  match error, e with
  | none, _ => none
  | some s, none => some s
  | some _, some g => some (some g)

/-- The engine's repository GObject, exposing the ten properties that
`convert_repo` reads via `g_object_get`. -/
structure SeafRepoObject where
  id : Option String
  name : Option String
  desc : Option String
  encrypted : Bool
  worktree : Option String
  auto_sync : Bool
  last_sync_time : Int
  worktree_invalid : Bool
  relay_id : Option String
  version : Int
deriving DecidableEq, Repr

/-- The Thrift `Repo` response record, with the descriptor fields written by
`convert_repo`.  Defaults are the fresh-GObject property values used by
`g_object_new (TYPE_REPO, NULL)`. -/
structure Repo where
  id : Option String := none
  name : Option String := none
  desc : Option String := none
  encrypted : Bool := false
  worktree : Option String := none
  auto_sync : Bool := false
  last_sync_time : Int := 0
  worktree_invalid : Bool := false
  relay_id : Option String := none
  version : Int := 0
deriving DecidableEq, Repr

/-- The Thrift `CloneRequest` record. -/
structure CloneRequest where
  repo_id : Option String
  repo_version : Int
  repo_name : Option String
  worktree : Option String
  token : Option String
  passwd : Option String
  magic : Option String
  email : Option String
  random_key : Option String
  enc_version : Int
  more_info : Option String
deriving DecidableEq, Repr

/-- The Thrift `DownloadRequest` record: like `CloneRequest` but carrying the
worktree parent directory `wt_parent` instead of the worktree path. -/
structure DownloadRequest where
  repo_id : Option String
  repo_version : Int
  repo_name : Option String
  wt_parent : Option String
  token : Option String
  passwd : Option String
  magic : Option String
  email : Option String
  random_key : Option String
  enc_version : Int
  more_info : Option String
deriving DecidableEq, Repr

/-- The external seafile engine, treated as a black box: each entry point is
given by the value it returns paired with the error it reports. -/
structure Engine where
  seafile_set_config : Option String → Option String → Int × Option GError
  seafile_get_config : Option String → Option String × Option GError
  seafile_download : Option String → Int → Option String → Option String →
    Option String → Option String → Option String → Option String →
    Option String → Int → Option String → Option String × Option GError
  seafile_clone : Option String → Int → Option String → Option String →
    Option String → Option String → Option String → Option String →
    Option String → Int → Option String → Option String × Option GError
  seafile_get_repo : Option String → Option SeafRepoObject × Option GError
  seafile_destroy_repo : Option String → Option GError
  seafile_shutdown_err : Option GError
  seafile_get_repo_list : Int → Int → List SeafRepoObject × Option GError

/-- The handler's log hash table (`GHashTable` keyed by ints, created with
`g_hash_table_new_full (g_int_hash, g_int_equal, g_free, g_object_unref)`).
Values are opaque GObject references. -/
structure GHashTable where
  entries : List (Int × Nat) := []
deriving DecidableEq, Repr

/-- The freshly created, empty log table. -/
def g_hash_table_new_full : GHashTable := { entries := [] }

/-- The handler object (`struct _SeafileServiceHandler`): its one private
field is the log table pointer, `none` when NULL. -/
structure SeafileServiceHandler where
  log : Option GHashTable
deriving DecidableEq, Repr

/-- Embedding of `seafile_service_handler_init`: allocates the log table. -/
def seafile_service_handler_init (self : SeafileServiceHandler) :
    SeafileServiceHandler :=
  { self with log := some g_hash_table_new_full }

/-- Embedding of `seafile_service_handler_finalize`: unrefs the log table and
sets the field to NULL.  The second component is the table reference that was
passed to `g_hash_table_unref`. -/
def seafile_service_handler_finalize (self : SeafileServiceHandler) :
    SeafileServiceHandler × Option GHashTable :=
  ({ self with log := none }, self.log)

/-- The outcome of one RPC handler call: the gboolean return, the value left
in the `_return` out-parameter, the handler object after the call, and the
final state of the `GError **` pointer. -/
structure RpcResult (α : Type) where
  ret : Bool
  result : α
  iface : SeafileServiceHandler
  errp : ErrPtr
deriving DecidableEq, Repr

/-- Embedding of `seafile_service_handler_ping`: unconditionally TRUE, the
error pointer untouched. -/
def seafile_service_handler_ping (iface : SeafileServiceHandler)
    (error : ErrPtr) : RpcResult Unit :=
  { ret := true, result := (), iface := iface, errp := error }

/-- Embedding of `seafile_service_set_config`. -/
def seafile_service_set_config (E : Engine) (iface : SeafileServiceHandler)
    (key value : Option String) (error : ErrPtr) : RpcResult Int :=
  let c := E.seafile_set_config key value
  let error2 := store_error error c.2
  { ret := handle_error error2, result := c.1, iface := iface, errp := error2 }

/-- Embedding of `seafile_service_get_config`. -/
def seafile_service_get_config (E : Engine) (iface : SeafileServiceHandler)
    (key : Option String) (error : ErrPtr) : RpcResult (Option String) :=
  let c := E.seafile_get_config key
  let error2 := store_error error c.2
  { ret := handle_error error2, result := c.1, iface := iface, errp := error2 }

/-- Embedding of `seafile_service_handler_download_repo`: the request fields
are passed to `seafile_download` in source order, `wt_parent` fourth. -/
def seafile_service_handler_download_repo (E : Engine)
    (iface : SeafileServiceHandler) (request : DownloadRequest)
    (error : ErrPtr) : RpcResult (Option String) :=
  let c := E.seafile_download request.repo_id request.repo_version
    request.repo_name request.wt_parent request.token request.passwd
    request.magic request.email request.random_key request.enc_version
    request.more_info
  let error2 := store_error error c.2
  { ret := handle_error error2, result := c.1, iface := iface, errp := error2 }

/-- Embedding of `seafile_service_handler_clone_repo`: the request fields are
passed to `seafile_clone` in source order, `worktree` fourth. -/
def seafile_service_handler_clone_repo (E : Engine)
    (iface : SeafileServiceHandler) (request : CloneRequest)
    (error : ErrPtr) : RpcResult (Option String) :=
  let c := E.seafile_clone request.repo_id request.repo_version
    request.repo_name request.worktree request.token request.passwd
    request.magic request.email request.random_key request.enc_version
    request.more_info
  let error2 := store_error error c.2
  { ret := handle_error error2, result := c.1, iface := iface, errp := error2 }

/-- Embedding of `convert_repo`: overwrites the ten descriptor fields of the
response record `r` with the engine object's corresponding properties. -/
def convert_repo (repo : SeafRepoObject) (r : Repo) : Repo :=
  { r with
    id := repo.id
    name := repo.name
    desc := repo.desc
    encrypted := repo.encrypted
    worktree := repo.worktree
    auto_sync := repo.auto_sync
    last_sync_time := repo.last_sync_time
    worktree_invalid := repo.worktree_invalid
    relay_id := repo.relay_id
    version := repo.version }

/-- Embedding of `seafile_service_handler_get_repo`.  `ret0` is the record
the `_return` out-parameter points at on entry. -/
def seafile_service_handler_get_repo (E : Engine)
    (iface : SeafileServiceHandler) (ret0 : Repo) (repo_id : Option String)
    (error : ErrPtr) : RpcResult Repo :=
  let g := E.seafile_get_repo repo_id
  let error2 := store_error error g.2
  match g.1 with
  | none => { ret := false, result := ret0, iface := iface, errp := error2 }
  | some repo =>
    { ret := handle_error error2, result := convert_repo repo ret0,
      iface := iface, errp := error2 }

/-- Embedding of `seafile_service_handler_destroy_repo` (the engine's integer
return is discarded by the source). -/
def seafile_service_handler_destroy_repo (E : Engine)
    (iface : SeafileServiceHandler) (repo_id : Option String)
    (error : ErrPtr) : RpcResult Unit :=
  let error2 := store_error error (E.seafile_destroy_repo repo_id)
  { ret := handle_error error2, result := (), iface := iface, errp := error2 }

/-- Embedding of `seafile_service_handler_shutdown`. -/
def seafile_service_handler_shutdown (E : Engine)
    (iface : SeafileServiceHandler) (error : ErrPtr) : RpcResult Unit :=
  let error2 := store_error error E.seafile_shutdown_err
  { ret := handle_error error2, result := (), iface := iface, errp := error2 }

/-- The fresh `Repo` allocated by `g_object_new (TYPE_REPO, NULL)` for each
list element. -/
def g_object_new_repo : Repo := {}

/-- Embedding of `seafile_service_handler_get_repo_list`.  `ret0` is the
content of the `GPtrArray` the `_return` out-parameter points at on entry;
the loop appends one converted record per engine list element, in order,
before the error check. -/
def seafile_service_handler_get_repo_list (E : Engine)
    (iface : SeafileServiceHandler) (ret0 : List Repo) (start limit : Int)
    (error : ErrPtr) : RpcResult (List Repo) :=
  let g := E.seafile_get_repo_list start limit
  let error2 := store_error error g.2
  { ret := handle_error error2
    result := ret0 ++ g.1.map (fun repo => convert_repo repo g_object_new_repo)
    iface := iface
    errp := error2 }

/-! Concrete engines and handler objects used by witnesses and the
counterexample. -/

/-- An engine on which every call succeeds but every nullable result is
NULL (e.g. `seafile_get_config` on an unset key). -/
def engine0 : Engine where
  seafile_set_config := fun _ _ => (0, none)
  seafile_get_config := fun _ => (none, none)
  seafile_download := fun _ _ _ _ _ _ _ _ _ _ _ => (none, none)
  seafile_clone := fun _ _ _ _ _ _ _ _ _ _ _ => (none, none)
  seafile_get_repo := fun _ => (none, none)
  seafile_destroy_repo := fun _ => none
  seafile_shutdown_err := none
  seafile_get_repo_list := fun _ _ => ([], none)

/-- A sample repository object of the engine. -/
def obj1 : SeafRepoObject where
  id := some "repo-1"
  name := some "docs"
  desc := some "a repo"
  encrypted := true
  worktree := some "/home/u/docs"
  auto_sync := false
  last_sync_time := 1700000000
  worktree_invalid := false
  relay_id := some "relay-9"
  version := 1

/-- An engine whose get_repo and get_repo_list succeed with `obj1`. -/
def engine1 : Engine :=
  { engine0 with
    seafile_get_repo := fun _ => (some obj1, none)
    seafile_get_repo_list := fun _ _ => ([obj1], none) }

/-- A sample engine error. -/
def err1 : GError where
  domain := 1
  code := 500
  message := "engine failure"

/-- An engine whose get_repo_list returns a non-empty list and also reports
an error. -/
def engine2 : Engine :=
  { engine0 with
    seafile_get_repo_list := fun _ _ => ([obj1], some err1) }

/-- A handler object whose log pointer is NULL (pre-init state). -/
def handler0 : SeafileServiceHandler := { log := none }

/-! Helper lemmas. -/

/-- With a fresh error slot, the boolean returned by `handle_error` after an
engine call is FALSE exactly when the engine reported an error. -/
theorem ret_iff_err (e : Option GError) :
    (handle_error (store_error (some none) e) = false) ↔ e.isSome := by
  cases e <;> simp [handle_error, store_error]

/-- With a NULL error pointer the stored pointer stays NULL and
`handle_error` returns TRUE. -/
theorem handle_error_null (e : Option GError) :
    handle_error (store_error none e) = true := by
  cases e <;> simp [handle_error, store_error]

/-- `convert_repo` written out as an explicit record of the object's ten
descriptor properties. -/
theorem convert_repo_eq (o : SeafRepoObject) (r : Repo) :
    convert_repo o r =
      { id := o.id, name := o.name, desc := o.desc, encrypted := o.encrypted,
        worktree := o.worktree, auto_sync := o.auto_sync,
        last_sync_time := o.last_sync_time,
        worktree_invalid := o.worktree_invalid, relay_id := o.relay_id,
        version := o.version } := rfl

/-- Projection of `seafile_service_handler_get_repo`: the handler object is
left unchanged on both branches. -/
theorem get_repo_iface (E : Engine) (iface : SeafileServiceHandler)
    (ret0 : Repo) (rid : Option String) (error : ErrPtr) :
    (seafile_service_handler_get_repo E iface ret0 rid error).iface = iface := by
  simp only [seafile_service_handler_get_repo]
  cases (E.seafile_get_repo rid).1 <;> rfl

/-- C1 counterexample: on an engine whose `seafile_get_config` returns a NULL
result without populating the error object, `seafile_service_get_config`
stores the NULL result yet returns TRUE, so a null engine result is not
translated into a FALSE return. -/
theorem C1_counterexample :
    (engine0.seafile_get_config (some "k")).1 = none ∧
    (seafile_service_get_config engine0 handler0 (some "k") (some none)).result
      = none ∧
    (seafile_service_get_config engine0 handler0 (some "k") (some none)).ret
      = true :=
  ⟨rfl, rfl, rfl⟩

/-- C1 (amended): for set_config, get_config, clone_repo, download_repo,
destroy_repo, shutdown and get_repo_list, called with an empty error slot, the
handler returns FALSE exactly when the engine populated the error object; a
null engine result with no error yields TRUE. -/
theorem C1_amended (E : Engine) (iface : SeafileServiceHandler)
    (key v rid : Option String) (creq : CloneRequest) (dreq : DownloadRequest)
    (init : List Repo) (start limit : Int) :
    ((seafile_service_set_config E iface key v (some none)).ret = false ↔
      (E.seafile_set_config key v).2.isSome) ∧
    ((seafile_service_get_config E iface key (some none)).ret = false ↔
      (E.seafile_get_config key).2.isSome) ∧
    ((seafile_service_handler_clone_repo E iface creq (some none)).ret = false ↔
      (E.seafile_clone creq.repo_id creq.repo_version creq.repo_name
        creq.worktree creq.token creq.passwd creq.magic creq.email
        creq.random_key creq.enc_version creq.more_info).2.isSome) ∧
    ((seafile_service_handler_download_repo E iface dreq (some none)).ret
        = false ↔
      (E.seafile_download dreq.repo_id dreq.repo_version dreq.repo_name
        dreq.wt_parent dreq.token dreq.passwd dreq.magic dreq.email
        dreq.random_key dreq.enc_version dreq.more_info).2.isSome) ∧
    ((seafile_service_handler_destroy_repo E iface rid (some none)).ret
        = false ↔
      (E.seafile_destroy_repo rid).isSome) ∧
    ((seafile_service_handler_shutdown E iface (some none)).ret = false ↔
      E.seafile_shutdown_err.isSome) ∧
    ((seafile_service_handler_get_repo_list E iface init start limit
        (some none)).ret = false ↔
      (E.seafile_get_repo_list start limit).2.isSome) :=
  ⟨ret_iff_err (E.seafile_set_config key v).2,
    ret_iff_err (E.seafile_get_config key).2,
    ret_iff_err (E.seafile_clone creq.repo_id creq.repo_version creq.repo_name
      creq.worktree creq.token creq.passwd creq.magic creq.email
      creq.random_key creq.enc_version creq.more_info).2,
    ret_iff_err (E.seafile_download dreq.repo_id dreq.repo_version
      dreq.repo_name dreq.wt_parent dreq.token dreq.passwd dreq.magic
      dreq.email dreq.random_key dreq.enc_version dreq.more_info).2,
    ret_iff_err (E.seafile_destroy_repo rid),
    ret_iff_err E.seafile_shutdown_err,
    ret_iff_err (E.seafile_get_repo_list start limit).2⟩

/-- C2: get_repo (on a non-null engine object) and get_repo_list populate the
response record by copying exactly the ten descriptor fields — id, name,
description, encryption flag, worktree, auto-sync flag, last sync time,
worktree-validity flag, relay id, version — out of the engine's repository
object, field by field. -/
theorem C2_descriptor_copy (E : Engine) (iface : SeafileServiceHandler)
    (ret0 : Repo) (rid : Option String) (o : SeafRepoObject) (error : ErrPtr)
    (init : List Repo) (start limit : Int)
    (h : (E.seafile_get_repo rid).1 = some o) :
    (seafile_service_handler_get_repo E iface ret0 rid error).result =
      { id := o.id, name := o.name, desc := o.desc, encrypted := o.encrypted,
        worktree := o.worktree, auto_sync := o.auto_sync,
        last_sync_time := o.last_sync_time,
        worktree_invalid := o.worktree_invalid, relay_id := o.relay_id,
        version := o.version } ∧
    (seafile_service_handler_get_repo_list E iface init start limit
        error).result =
      init ++ (E.seafile_get_repo_list start limit).1.map (fun ob =>
        { id := ob.id, name := ob.name, desc := ob.desc,
          encrypted := ob.encrypted, worktree := ob.worktree,
          auto_sync := ob.auto_sync, last_sync_time := ob.last_sync_time,
          worktree_invalid := ob.worktree_invalid, relay_id := ob.relay_id,
          version := ob.version }) := by
  constructor
  · simp [seafile_service_handler_get_repo, h, convert_repo]
  · simp [seafile_service_handler_get_repo_list, convert_repo,
      g_object_new_repo]

/-- C2 witness: concrete instance of `C2_descriptor_copy` on `engine1`. -/
theorem C2_descriptor_copy_witness :
    (engine1.seafile_get_repo (some "repo-1")).1 = some obj1 ∧
    ((seafile_service_handler_get_repo engine1 handler0 {} (some "repo-1")
        (some none)).result =
      { id := obj1.id, name := obj1.name, desc := obj1.desc,
        encrypted := obj1.encrypted, worktree := obj1.worktree,
        auto_sync := obj1.auto_sync, last_sync_time := obj1.last_sync_time,
        worktree_invalid := obj1.worktree_invalid, relay_id := obj1.relay_id,
        version := obj1.version } ∧
    (seafile_service_handler_get_repo_list engine1 handler0 [] 0 10
        (some none)).result =
      [] ++ (engine1.seafile_get_repo_list 0 10).1.map (fun ob =>
        { id := ob.id, name := ob.name, desc := ob.desc,
          encrypted := ob.encrypted, worktree := ob.worktree,
          auto_sync := ob.auto_sync, last_sync_time := ob.last_sync_time,
          worktree_invalid := ob.worktree_invalid, relay_id := ob.relay_id,
          version := ob.version })) :=
  ⟨rfl, C2_descriptor_copy engine1 handler0 {} (some "repo-1") obj1
    (some none) [] 0 10 rfl⟩

/-- C3: when the engine returns a null repository object, get_repo returns
FALSE and the response record keeps its entry value (no fields copied). -/
theorem C3_get_repo_null (E : Engine) (iface : SeafileServiceHandler)
    (ret0 : Repo) (rid : Option String) (error : ErrPtr)
    (h : (E.seafile_get_repo rid).1 = none) :
    (seafile_service_handler_get_repo E iface ret0 rid error).ret = false ∧
    (seafile_service_handler_get_repo E iface ret0 rid error).result = ret0 := by
  constructor <;> simp [seafile_service_handler_get_repo, h]

/-- C3 witness: concrete instance of `C3_get_repo_null` on `engine0`. -/
theorem C3_get_repo_null_witness :
    (engine0.seafile_get_repo (some "missing")).1 = none ∧
    (seafile_service_handler_get_repo engine0 handler0 {} (some "missing")
      (some none)).ret = false ∧
    (seafile_service_handler_get_repo engine0 handler0 {} (some "missing")
      (some none)).result = {} :=
  ⟨rfl,
    (C3_get_repo_null engine0 handler0 {} (some "missing") (some none) rfl).1,
    (C3_get_repo_null engine0 handler0 {} (some "missing") (some none) rfl).2⟩

/-- C4: clone_repo passes the request's fields to the engine's clone function
verbatim and in full — repo id, repo version, repo name, worktree, token,
password, magic, email, random key, encryption version, extra info — stores
the engine's returned string in the RPC result, and stores the engine's
reported error through the error pointer. -/
theorem C4_clone_forwards (E : Engine) (iface : SeafileServiceHandler)
    (request : CloneRequest) (error : ErrPtr) :
    (seafile_service_handler_clone_repo E iface request error).result =
      (E.seafile_clone request.repo_id request.repo_version request.repo_name
        request.worktree request.token request.passwd request.magic
        request.email request.random_key request.enc_version
        request.more_info).1 ∧
    (seafile_service_handler_clone_repo E iface request error).errp =
      store_error error
        (E.seafile_clone request.repo_id request.repo_version
          request.repo_name request.worktree request.token request.passwd
          request.magic request.email request.random_key request.enc_version
          request.more_info).2 :=
  ⟨rfl, rfl⟩

/-- C5: download_repo passes the request's fields to the engine's download
function verbatim, with `wt_parent` in the position where clone passes the
worktree path, stores the engine's returned string in the RPC result, and
stores the engine's reported error through the error pointer. -/
theorem C5_download_forwards (E : Engine) (iface : SeafileServiceHandler)
    (request : DownloadRequest) (error : ErrPtr) :
    (seafile_service_handler_download_repo E iface request error).result =
      (E.seafile_download request.repo_id request.repo_version
        request.repo_name request.wt_parent request.token request.passwd
        request.magic request.email request.random_key request.enc_version
        request.more_info).1 ∧
    (seafile_service_handler_download_repo E iface request error).errp =
      store_error error
        (E.seafile_download request.repo_id request.repo_version
          request.repo_name request.wt_parent request.token request.passwd
          request.magic request.email request.random_key request.enc_version
          request.more_info).2 :=
  ⟨rfl, rfl⟩

/-- C6: get_repo_list passes start and limit to the engine verbatim and
appends exactly one converted descriptor per repository of the engine's list,
in the engine's order, after the array's existing content. -/
theorem C6_list_append (E : Engine) (iface : SeafileServiceHandler)
    (init : List Repo) (start limit : Int) (error : ErrPtr) :
    (seafile_service_handler_get_repo_list E iface init start limit
        error).result =
      init ++ (E.seafile_get_repo_list start limit).1.map
        (fun o => convert_repo o g_object_new_repo) ∧
    (seafile_service_handler_get_repo_list E iface init start limit
        error).result.length =
      init.length + (E.seafile_get_repo_list start limit).1.length := by
  refine ⟨rfl, ?_⟩
  simp [seafile_service_handler_get_repo_list]

/-- C7: the log table is allocated at init (the field is then non-null),
every RPC operation leaves the handler object unchanged, and finalize unrefs
exactly the stored table and sets the field to NULL. -/
theorem C7_log_lifecycle (s : SeafileServiceHandler) (E : Engine)
    (key v rid : Option String) (creq : CloneRequest) (dreq : DownloadRequest)
    (r0 : Repo) (init : List Repo) (start limit : Int) (error : ErrPtr) :
    (seafile_service_handler_init s).log = some g_hash_table_new_full ∧
    (seafile_service_handler_init s).log ≠ none ∧
    (seafile_service_handler_ping s error).iface = s ∧
    (seafile_service_set_config E s key v error).iface = s ∧
    (seafile_service_get_config E s key error).iface = s ∧
    (seafile_service_handler_clone_repo E s creq error).iface = s ∧
    (seafile_service_handler_download_repo E s dreq error).iface = s ∧
    (seafile_service_handler_get_repo E s r0 rid error).iface = s ∧
    (seafile_service_handler_destroy_repo E s rid error).iface = s ∧
    (seafile_service_handler_shutdown E s error).iface = s ∧
    (seafile_service_handler_get_repo_list E s init start limit error).iface
      = s ∧
    (seafile_service_handler_finalize s).1.log = none ∧
    (seafile_service_handler_finalize s).2 = s.log ∧
    (seafile_service_handler_finalize (seafile_service_handler_init s)).2 =
      some g_hash_table_new_full := by
  refine ⟨rfl, ?_, rfl, rfl, rfl, rfl, rfl, get_repo_iface E s r0 rid error,
    rfl, rfl, rfl, rfl, rfl, rfl⟩
  simp [seafile_service_handler_init]

/-- C8: ping returns TRUE and leaves the error pointer untouched, for every
handler object and error-pointer state. -/
theorem C8_ping_infallible (iface : SeafileServiceHandler) (error : ErrPtr) :
    (seafile_service_handler_ping iface error).ret = true ∧
    (seafile_service_handler_ping iface error).errp = error :=
  ⟨rfl, rfl⟩

/-- C9: get_repo_list is not atomic on error: when the engine reports an
error the handler returns FALSE, yet every repository of the engine's list
has already been converted and appended to the caller's array. -/
theorem C9_list_not_atomic (E : Engine) (iface : SeafileServiceHandler)
    (init : List Repo) (start limit : Int)
    (h : (E.seafile_get_repo_list start limit).2.isSome) :
    (seafile_service_handler_get_repo_list E iface init start limit
      (some none)).ret = false ∧
    (seafile_service_handler_get_repo_list E iface init start limit
        (some none)).result =
      init ++ (E.seafile_get_repo_list start limit).1.map
        (fun o => convert_repo o g_object_new_repo) :=
  ⟨(ret_iff_err (E.seafile_get_repo_list start limit).2).mpr h, rfl⟩

/-- C9 witness: concrete instance of `C9_list_not_atomic` on `engine2`,
whose list call yields one repository and an error. -/
theorem C9_list_not_atomic_witness :
    (engine2.seafile_get_repo_list 0 10).2.isSome = true ∧
    (seafile_service_handler_get_repo_list engine2 handler0 [] 0 10
      (some none)).ret = false ∧
    (seafile_service_handler_get_repo_list engine2 handler0 [] 0 10
        (some none)).result =
      [] ++ (engine2.seafile_get_repo_list 0 10).1.map
        (fun o => convert_repo o g_object_new_repo) :=
  ⟨rfl, (C9_list_not_atomic engine2 handler0 [] 0 10 rfl).1,
    (C9_list_not_atomic engine2 handler0 [] 0 10 rfl).2⟩

/-- C10: with a NULL error pointer, every operation that reports success via
handle_error returns TRUE regardless of the engine's behaviour; get_repo can
still return FALSE, but only through its separate null-object check. -/
theorem C10_null_errptr (E : Engine) (iface : SeafileServiceHandler)
    (key v rid : Option String) (creq : CloneRequest) (dreq : DownloadRequest)
    (r0 : Repo) (init : List Repo) (start limit : Int) :
    (seafile_service_set_config E iface key v none).ret = true ∧
    (seafile_service_get_config E iface key none).ret = true ∧
    (seafile_service_handler_clone_repo E iface creq none).ret = true ∧
    (seafile_service_handler_download_repo E iface dreq none).ret = true ∧
    (seafile_service_handler_destroy_repo E iface rid none).ret = true ∧
    (seafile_service_handler_shutdown E iface none).ret = true ∧
    (seafile_service_handler_get_repo_list E iface init start limit none).ret
      = true ∧
    ((seafile_service_handler_get_repo E iface r0 rid none).ret = true ∨
      (E.seafile_get_repo rid).1 = none) := by
  refine ⟨handle_error_null (E.seafile_set_config key v).2,
    handle_error_null (E.seafile_get_config key).2,
    handle_error_null (E.seafile_clone creq.repo_id creq.repo_version
      creq.repo_name creq.worktree creq.token creq.passwd creq.magic
      creq.email creq.random_key creq.enc_version creq.more_info).2,
    handle_error_null (E.seafile_download dreq.repo_id dreq.repo_version
      dreq.repo_name dreq.wt_parent dreq.token dreq.passwd dreq.magic
      dreq.email dreq.random_key dreq.enc_version dreq.more_info).2,
    handle_error_null (E.seafile_destroy_repo rid),
    handle_error_null E.seafile_shutdown_err,
    handle_error_null (E.seafile_get_repo_list start limit).2, ?_⟩
  rcases hg : (E.seafile_get_repo rid).1 with _ | o
  · exact Or.inr rfl
  · exact Or.inl (by
      simp [seafile_service_handler_get_repo, hg, handle_error_null])
